import Mathlib

/-!
Verification of the inventory-defect-analysis pipeline.

The definitions below are a shallow embedding of the Python sources:
`data_generator.py` (row derivation: variance, defect flag, defect type),
`defect_analysis.py` (integrity check, root-cause summary, visualization
severity buckets) and `run_sql_analysis.py` (the SQL aggregate queries,
expressed as list group-by operations, and the per-query error isolation
of `run_query`).  Machine reals appearing only as exact ratios of integers
are modelled by `Rat`; `ROUND(x, 2)` is modelled by rounding to the nearest
multiple of 1/100.  Fallible steps (a lookup that can raise, a score whose
denominator can be zero) return `Except`/`Option`.
-/

namespace Inventory

/-- Entry method of a transaction: `entry_method` column, drawn from
`['Manual', 'Scanner', 'System']` in `data_generator.py`. -/
inductive EntryMethod where
  | Manual
  | Scanner
  | Sys
  deriving DecidableEq, Repr

/-- `qty_variance = actual_qty - expected_qty` (data_generator.py line 43). -/
def qtyVariance (expected actual : Int) : Int := actual - expected

/-- `has_defect = abs(qty_variance) > 5` (data_generator.py line 44). -/
def hasDefect (v : Int) : Bool := decide (5 < |v|)

/-- The defect-type rule of data_generator.py lines 47-61: for a defective
row, `Count Discrepancy` when `abs(qty_variance) > 50`, else
`Manual Entry Error` for Manual entry, else `Scanner Malfunction` for
Scanner entry, else `System Error`; `No Defect` for a non-defective row. -/
def defectType (v : Int) (m : EntryMethod) (defect : Bool) : String :=
  if defect then
    if 50 < |v| then "Count Discrepancy"
    else if m = EntryMethod.Manual then "Manual Entry Error"
    else if m = EntryMethod.Scanner then "Scanner Malfunction"
    else "System Error"
  else "No Defect"

/-- The classifier as a pure function over one row:
`classify(expected, actual, entry_method) -> (variance, is_defect, defect_type)`. -/
def classify (expected actual : Int) (m : EntryMethod) : Int × Bool × String :=
  let v := qtyVariance expected actual
  let d := hasDefect v
  (v, d, defectType v m d)

/-- One generated transaction row, restricted to the columns the analyses
read.  The derived columns (`qtyVariance`, `hasDefect`, `defectType`) are
stored, mirroring the CSV: the analyses never recompute them. -/
structure Record where
  warehouse : String
  operatorId : String
  entryMethod : EntryMethod
  expectedQty : Int
  actualQty : Int
  qtyVariance : Int
  hasDefect : Bool
  defectType : String
  deriving DecidableEq, Repr

/-- Row derivation of data_generator.py: the derived columns are computed
once from `expected_qty`, `actual_qty` and `entry_method`. -/
def deriveRecord (wh op : String) (e a : Int) (m : EntryMethod) : Record :=
  let v := qtyVariance e a
  let d := hasDefect v
  { warehouse := wh
    operatorId := op
    entryMethod := m
    expectedQty := e
    actualQty := a
    qtyVariance := v
    hasDefect := d
    defectType := defectType v m d }

/-- `ROUND(x, 2)` / pandas `.round(2)`: round to the nearest multiple of
1/100 (the sources only round nonnegative rates, where round-half-up agrees
with SQLite's round-half-away-from-zero). -/
def round2 (q : Rat) : Rat := (round (q * 100) : Int) / 100

/-- Severity banding of the visualization path (defect_analysis.py lines
257-259): `pd.cut` of `abs(qty_variance)` with right-closed bins
`(0,10] (10,25] (25,50] (50,500]`; a value outside every bin gets no band. -/
def severityViz (x : Int) : Option String :=
  if 0 < x ∧ x ≤ 10 then some "Low"
  else if 10 < x ∧ x ≤ 25 then some "Medium"
  else if 25 < x ∧ x ≤ 50 then some "High"
  else if 50 < x ∧ x ≤ 500 then some "Critical"
  else none

/-- Severity banding of the SQL path (run_sql_analysis.py, query 6 CASE):
`Critical` over 50, `High` over 20, `Medium` over 5, else `Low`. -/
def severitySQL (v : Int) : String :=
  if 50 < |v| then "Critical"
  else if 20 < |v| then "High"
  else if 5 < |v| then "Medium"
  else "Low"

/-- Number of missing cells of a table, `df.isnull().sum().sum()`:
rows are lists of optional cells, a `none` cell is a null. -/
def nullCells (rows : List (List (Option String))) : Nat :=
  (rows.map (fun r => r.countP Option.isNone)).sum

/-- Integrity score of `validate_data_integrity` (defect_analysis.py lines
46-52): `(1 - null_cells / total_cells) * 100` with
`total_cells = len(df) * len(df.columns)`.  The source has no guard: on an
empty table the Python expression is `0 / 0`, a NaN, modelled as `none`. -/
def integrityScore (ncols : Nat) (rows : List (List (Option String))) : Option Rat :=
  let totalCells := rows.length * ncols
  if totalCells = 0 then none
  else some ((1 - (nullCells rows : Rat) / (totalCells : Rat)) * 100)

/-- `defects = df[df['has_defect'] == True]`. -/
def defectsOf (rs : List Record) : List Record := rs.filter (fun r => r.hasDefect)

/-- One row of the root-cause summary: incident count, mean absolute
variance and percentage share for one defect type. -/
structure CauseRow where
  causeType : String
  incidentCount : Nat
  avgVariance : Rat
  percentage : Rat
  deriving DecidableEq, Repr

/-- The root-cause group for one defect type (defect_analysis.py lines
88-101): count, `abs(x).mean()`, and `count / len(defects) * 100` rounded
to two decimals. -/
def causeRow (defects : List Record) (t : String) : CauseRow :=
  let grp := defects.filter (fun r => r.defectType = t)
  { causeType := t
    incidentCount := grp.length
    avgVariance := ((grp.map (fun r => ((|r.qtyVariance| : Int) : Rat))).sum) / (grp.length : Rat)
    percentage := round2 ((grp.length : Rat) / (defects.length : Rat) * 100) }

/-- The root-cause summary: one row per defect type present among the
defective records, sorted by incident count descending. -/
def causeSummary (rs : List Record) : List CauseRow :=
  let defects := defectsOf rs
  (((defects.map (fun r => r.defectType)).dedup).map (causeRow defects)).mergeSort
    (fun x y => decide (y.incidentCount ≤ x.incidentCount))

/-- The full `root_cause_analysis`: after building the summary the source
extracts the top cause with `cause_summary.index[0]` / `iloc[0]`, which
raises `IndexError` when the summary is empty. -/
def rootCauseAnalysis (rs : List Record) : Except String (List CauseRow × String × Rat) :=
  match causeSummary rs with
  | [] => Except.error "IndexError: index 0 is out of bounds"
  | top :: _ => Except.ok (causeSummary rs, top.causeType, top.percentage)

/-- `WHERE entry_method = 'Manual'` (run_sql_analysis.py query 5). -/
def manualRecords (rs : List Record) : List Record :=
  rs.filter (fun r => r.entryMethod = EntryMethod.Manual)

/-- Number of Manual-entry transactions of one operator. -/
def manualCount (rs : List Record) (op : String) : Nat :=
  ((manualRecords rs).filter (fun r => r.operatorId = op)).length

/-- One row of the operator ranking: transactions, errors and the rounded
error rate of one operator over Manual-entry records. -/
structure OperatorRow where
  operatorId : String
  transactions : Nat
  errors : Nat
  errorRate : Rat
  deriving DecidableEq, Repr

/-- The per-operator group of query 5: `COUNT(*)`, defect count and
`ROUND(errors * 100.0 / COUNT(*), 2)` over Manual-entry records. -/
def operatorRow (rs : List Record) (op : String) : OperatorRow :=
  let grp := (manualRecords rs).filter (fun r => r.operatorId = op)
  let errs := (grp.filter (fun r => r.hasDefect)).length
  { operatorId := op
    transactions := grp.length
    errors := errs
    errorRate := round2 ((errs : Rat) * 100 / (grp.length : Rat)) }

/-- Query 5 (run_sql_analysis.py lines 151-167): group Manual-entry records
by operator, keep groups with `HAVING COUNT(*) > 100`, order by error rate
descending, `LIMIT 10`. -/
def operatorRanking (rs : List Record) : List OperatorRow :=
  let ops := ((manualRecords rs).map (fun r => r.operatorId)).dedup
  let qualified := (ops.map (operatorRow rs)).filter (fun row => 100 < row.transactions)
  (qualified.mergeSort (fun x y => decide (y.errorRate ≤ x.errorRate))).take 10

/-- Query 6 (run_sql_analysis.py lines 170-196): severity distribution of
defective records, grouped by the CASE severity band. -/
def severityDistSQL (rs : List Record) : List (String × Nat) :=
  let defects := rs.filter (fun r => r.hasDefect)
  let keys := (defects.map (fun r => severitySQL r.qtyVariance)).dedup
  keys.map (fun k => (k, (defects.filter (fun r => severitySQL r.qtyVariance = k)).length))

/-- `run_query` (run_sql_analysis.py lines 57-77): a query that succeeds
returns its result frame; a query that raises is caught, the error is
printed with its cause, and `None` is returned. -/
def runQuery {α : Type} (q : Except String α) : Option α × List String :=
  match q with
  | Except.ok r => (some r, [])
  | Except.error e => (none, ["Error: " ++ e])

/-- The report driver: each titled query is run through `runQuery`
independently, in order. -/
def runReport {α : Type} (qs : List (String × Except String α)) : List (String × Option α) :=
  qs.map (fun tq => (tq.1, (runQuery tq.2).1))

/-- `df.to_sql(..., if_exists='replace')` (load_to_sql.py line 10,
run_sql_analysis.py line 50): the table is dropped and rebuilt from the
frame, so the resulting table state is the frame's rows regardless of the
prior table state (`none` models an absent table). -/
def toSqlReplace (df : List Record) (_db : Option (List Record)) : Option (List Record) :=
  some df

/-- A small concrete dataset built by the generator's row derivation, used
to instantiate the universally quantified theorems, matching the
scenarios of the specification. -/
def sampleRecords : List Record :=
  [ deriveRecord "WH-A" "OP-001" 100 160 EntryMethod.Scanner
  , deriveRecord "WH-A" "OP-002" 200 210 EntryMethod.Manual
  , deriveRecord "WH-B" "OP-003" 100 103 EntryMethod.Manual
  , deriveRecord "WH-C" "OP-004" 50 20 EntryMethod.Sys ]

/-- C1: the defect type is computed by descending priority — for a defective
row `Count Discrepancy` when `|variance| > 50`, else `Manual Entry Error` for
Manual entry, else `Scanner Malfunction` for Scanner entry, else
`System Error`; a non-defective row gets `No Defect`, and `No Defect` holds
iff the defect flag is false.  Concretely `classify 100 160 Scanner` yields
variance 60, defect flag true and type `Count Discrepancy`. -/
theorem classify_priority_spec (e a : Int) (m : EntryMethod) :
    (classify e a m).1 = a - e
    ∧ (classify e a m).2.1 = hasDefect (a - e)
    ∧ ((classify e a m).2.2 = "Count Discrepancy" ↔ 5 < |a - e| ∧ 50 < |a - e|)
    ∧ ((classify e a m).2.2 = "Manual Entry Error" ↔
        5 < |a - e| ∧ ¬50 < |a - e| ∧ m = EntryMethod.Manual)
    ∧ ((classify e a m).2.2 = "Scanner Malfunction" ↔
        5 < |a - e| ∧ ¬50 < |a - e| ∧ m ≠ EntryMethod.Manual ∧ m = EntryMethod.Scanner)
    ∧ ((classify e a m).2.2 = "System Error" ↔
        5 < |a - e| ∧ ¬50 < |a - e| ∧ m ≠ EntryMethod.Manual ∧ m ≠ EntryMethod.Scanner)
    ∧ ((classify e a m).2.2 = "No Defect" ↔ (classify e a m).2.1 = false)
    ∧ classify 100 160 EntryMethod.Scanner = (60, true, "Count Discrepancy") := by
  have h505 : 50 < |a - e| → 5 < |a - e| := fun h =>
    lt_trans (by norm_num : (5 : Int) < 50) h
  rcases m <;>
    by_cases h5 : 5 < |a - e| <;>
    by_cases h50 : 50 < |a - e| <;>
  first
    | exact absurd (h505 h50) h5
    | simp [classify, qtyVariance, hasDefect, defectType, h5, h50]

/-- C2: for every derived record, the stored quantity variance equals actual
minus expected, and the stored defect flag is true iff `|variance| > 5`. -/
theorem derive_variance_defect (wh op : String) (e a : Int) (m : EntryMethod) :
    (deriveRecord wh op e a m).qtyVariance = a - e
    ∧ ((deriveRecord wh op e a m).hasDefect = true ↔ 5 < |a - e|) := by
  refine ⟨rfl, ?_⟩
  simp [deriveRecord, qtyVariance, hasDefect]

/-- C3 counterexample: on the empty dataset (0 rows of the 15-column
table) the integrity check does not report a 100% completeness score (the
source's `0 / 0` is undefined, modelled `none`), and the root-cause
analysis raises instead of returning an empty result. -/
theorem empty_dataset_crashes :
    integrityScore 15 [] ≠ some 100
    ∧ rootCauseAnalysis [] = Except.error "IndexError: index 0 is out of bounds" := by
  constructor
  · simp [integrityScore]
  · simp [rootCauseAnalysis, causeSummary, defectsOf, List.mergeSort_nil]

/-- C3 (amended): on the empty overall dataset the integrity score is
undefined (the source divides zero cells by zero cells, yielding NaN, not
100%), and the root-cause analysis fails with an IndexError when it
extracts the top cause instead of reporting an empty result; the bare
group-by summaries themselves are empty without error (shown for the
root-cause summary and the SQL-path operator ranking and severity
distribution). -/
theorem empty_dataset_behavior :
    integrityScore 15 [] = none
    ∧ rootCauseAnalysis [] = Except.error "IndexError: index 0 is out of bounds"
    ∧ causeSummary [] = []
    ∧ operatorRanking [] = []
    ∧ severityDistSQL [] = [] := by
  refine ⟨rfl, ?_, ?_, ?_, rfl⟩
  · simp [rootCauseAnalysis, causeSummary, defectsOf, List.mergeSort_nil]
  · simp [causeSummary, defectsOf, List.mergeSort_nil]
  · simp [operatorRanking, manualRecords, List.mergeSort_nil]

/-- C4: the visualization path and the SQL path use different
High/Medium cut points (25 versus 20): the visualization bins keep 25 in
the Medium band and start High at 26, while the SQL CASE keeps 20 in
Medium and starts High at 21; hence a defective record with
absolute variance 21 is banded Medium by one path and High by the other,
so the two severity computations are not equivalent. -/
theorem severity_paths_differ :
    severityViz 25 = some "Medium" ∧ severityViz 26 = some "High"
    ∧ severitySQL 20 = "Medium" ∧ severitySQL 21 = "High"
    ∧ (∃ v : Int, hasDefect v = true ∧ severityViz |v| ≠ some (severitySQL v)) := by
  refine ⟨by decide, by decide, by decide, by decide, ⟨21, by decide, by decide⟩⟩

/-- C7: `run_query` isolates failures — a failing query is replaced by a
skipped (`none`) entry whose error is logged with its cause, and the
remaining queries before and after it execute exactly as they would
alone; every successful query's result is present in the report. -/
theorem runQuery_isolates_failures (α : Type) (pre : List (String × Except String α))
    (t e : String) (post : List (String × Except String α)) :
    runReport (pre ++ (t, Except.error e) :: post)
      = runReport pre ++ (t, none) :: runReport post
    ∧ runQuery (Except.error e : Except String α) = (none, ["Error: " ++ e])
    ∧ (∀ tq ∈ pre ++ (t, Except.error e) :: post, ∀ r, tq.2 = Except.ok r →
        (tq.1, some r) ∈ runReport (pre ++ (t, Except.error e) :: post))
    ∧ (runReport (pre ++ (t, Except.error e) :: post)).length
        = (pre ++ (t, Except.error e) :: post).length := by
  refine ⟨?_, rfl, ?_, by simp [runReport]⟩
  · simp [runReport, runQuery]
  · intro tq htq r hr
    simp only [runReport, List.mem_map]
    exact ⟨tq, htq, by simp [hr, runQuery]⟩

/-- C8: loading the same frame into the relational table twice with
replace semantics yields the same table as loading it once, and that
table is exactly the frame's rows. -/
theorem toSql_replace_idempotent (df : List Record) (db : Option (List Record)) :
    toSqlReplace df (toSqlReplace df db) = toSqlReplace df db
    ∧ toSqlReplace df db = some df :=
  ⟨rfl, rfl⟩

/-- C5: the operator ranking is computed over Manual-entry records only —
every listed row's transaction count is its operator's Manual-entry count
and exceeds 100; the rows are ordered by error rate descending; at most 10
rows are retained; and an operator with 100 or fewer Manual-entry
transactions never appears, whatever its error rate. -/
theorem operatorRanking_spec (rs : List Record) :
    (∀ row ∈ operatorRanking rs,
        100 < row.transactions ∧ row.transactions = manualCount rs row.operatorId)
    ∧ List.Pairwise (fun x y => y.errorRate ≤ x.errorRate) (operatorRanking rs)
    ∧ (operatorRanking rs).length ≤ 10
    ∧ (∀ op, manualCount rs op ≤ 100 →
        ∀ row ∈ operatorRanking rs, row.operatorId ≠ op) := by
  have key : ∀ row ∈ operatorRanking rs,
      100 < row.transactions ∧ row.transactions = manualCount rs row.operatorId := by
    intro row hrow
    simp only [operatorRanking] at hrow
    have h2 : row ∈ ((((manualRecords rs).map (fun r => r.operatorId)).dedup).map
        (operatorRow rs)).filter (fun q => 100 < q.transactions) :=
      (List.mergeSort_perm _ _).mem_iff.mp (List.take_subset _ _ hrow)
    have h5 : 100 < row.transactions := by simpa using List.of_mem_filter h2
    obtain ⟨op, _, rfl⟩ := List.mem_map.mp (List.mem_of_mem_filter h2)
    exact ⟨h5, rfl⟩
  refine ⟨key, ?_, ?_, ?_⟩
  · have htrans : ∀ x y z : OperatorRow,
        decide (y.errorRate ≤ x.errorRate) = true →
        decide (z.errorRate ≤ y.errorRate) = true →
        decide (z.errorRate ≤ x.errorRate) = true := by
      intro x y z hxy hyz
      simp only [decide_eq_true_eq] at hxy hyz ⊢
      exact le_trans hyz hxy
    have htotal : ∀ x y : OperatorRow,
        (decide (y.errorRate ≤ x.errorRate) || decide (x.errorRate ≤ y.errorRate)) = true := by
      intro x y
      rcases le_total y.errorRate x.errorRate with h | h <;> simp [h]
    simp only [operatorRanking]
    refine List.Pairwise.imp (fun h => of_decide_eq_true h) ?_
    exact List.Pairwise.sublist (List.take_sublist _ _)
      (List.sorted_mergeSort htrans htotal _)
  · simp only [operatorRanking]
    exact List.length_take_le _ _
  · intro op hle row hrow hid
    obtain ⟨h5, htr⟩ := key row hrow
    rw [hid] at htr
    omega

/-- C9: under the generator invariant that each record's defect flag is
derived from its stored variance, the SQL severity distribution (which
filters to defective records) contains no `Low` band: the CASE's ELSE
branch would need `|variance| <= 5`, impossible for a defective record. -/
theorem sql_severity_no_low (rs : List Record)
    (hinv : ∀ r ∈ rs, r.hasDefect = hasDefect r.qtyVariance) :
    ∀ entry ∈ severityDistSQL rs, entry.1 ≠ "Low" := by
  intro entry hentry
  simp only [severityDistSQL, List.mem_map] at hentry
  obtain ⟨k, hk, rfl⟩ := hentry
  have hk2 : k ∈ (rs.filter (fun r => r.hasDefect)).map
      (fun r => severitySQL r.qtyVariance) := List.mem_dedup.mp hk
  obtain ⟨r, hr, rfl⟩ := List.mem_map.mp hk2
  have hdef : r.hasDefect = true := by simpa using List.of_mem_filter hr
  have hmem : r ∈ rs := List.mem_of_mem_filter hr
  have hv : 5 < |r.qtyVariance| := by
    have := hinv r hmem
    rw [hdef] at this
    simpa [hasDefect] using this.symm
  simp only [severitySQL]
  split_ifs with h50 h20
  · decide
  · decide
  · decide

/-- C9 witness: the sample dataset satisfies the generator invariant, and
no entry of its SQL severity distribution is the `Low` band. -/
theorem sql_severity_no_low_witness :
    (severityDistSQL sampleRecords).all (fun entry => decide (entry.1 ≠ "Low")) = true := by
  rw [List.all_eq_true]
  intro entry hentry
  exact decide_eq_true (sql_severity_no_low sampleRecords (by decide) entry hentry)

/-- C10: with expected and actual quantities drawn from 1..499, the
variance lies in [-498, 498]; a defective record's absolute variance lies
in [6, 498], strictly inside the visualization path's outer bin edges
(0, 500], so the severity bucketing assigns it a (non-null) band. -/
theorem defective_variance_in_bins (e a : Int)
    (he1 : 1 ≤ e) (he2 : e ≤ 499) (ha1 : 1 ≤ a) (ha2 : a ≤ 499) :
    -498 ≤ qtyVariance e a ∧ qtyVariance e a ≤ 498
    ∧ (hasDefect (qtyVariance e a) = true →
        6 ≤ |qtyVariance e a| ∧ |qtyVariance e a| ≤ 498
        ∧ (severityViz |qtyVariance e a|).isSome = true) := by
  unfold qtyVariance hasDefect severityViz
  rcases abs_cases (a - e) with ⟨hab, _⟩ | ⟨hab, _⟩ <;>
  · refine ⟨by omega, by omega, fun hd => ?_⟩
    have h5 : 5 < |a - e| := by simpa using hd
    refine ⟨by omega, by omega, ?_⟩
    split
    · rfl
    · split
      · rfl
      · split
        · rfl
        · split
          · rfl
          · omega

/-- C10 witness: the bounds and the banding hold at the concrete defective
draw expected 100, actual 160. -/
theorem defective_variance_in_bins_witness :
    -498 ≤ qtyVariance 100 160 ∧ qtyVariance 100 160 ≤ 498
    ∧ (hasDefect (qtyVariance 100 160) = true →
        6 ≤ |qtyVariance 100 160| ∧ |qtyVariance 100 160| ≤ 498
        ∧ (severityViz |qtyVariance 100 160|).isSome = true) :=
  defective_variance_in_bins 100 160 (by decide) (by decide) (by decide) (by decide)

/-- Rounding to two decimals moves a rational by at most 1/200. -/
theorem round2_sub_le (q : Rat) : |round2 q - q| ≤ 1 / 200 := by
  have h := abs_sub_round (q * 100)
  have h2 : round2 q - q = -((q * 100 - ((round (q * 100) : Int) : Rat)) / 100) := by
    unfold round2
    ring
  rw [h2, abs_neg, abs_div]
  have h3 : |(100 : Rat)| = 100 := by norm_num
  rw [h3]
  linarith

/-- Triangle inequality for the difference of two mapped sums. -/
theorem abs_sum_sub_sum_le {α : Type} (l : List α) (f g : α → Rat) (c : Rat)
    (hc : ∀ x ∈ l, |f x - g x| ≤ c) :
    |(l.map f).sum - (l.map g).sum| ≤ (l.length : Rat) * c := by
  induction l with
  | nil => simp
  | cons x xs ih =>
    have hx := hc x (List.mem_cons_self x xs)
    have hxs := ih (fun y hy => hc y (List.mem_cons_of_mem x hy))
    simp only [List.map_cons, List.sum_cons, List.length_cons]
    have hsplit : f x + (xs.map f).sum - (g x + (xs.map g).sum)
        = (f x - g x) + ((xs.map f).sum - (xs.map g).sum) := by ring
    rw [hsplit]
    have habs := abs_add (f x - g x) ((xs.map f).sum - (xs.map g).sum)
    have hcast : ((xs.length + 1 : Nat) : Rat) = (xs.length : Rat) + 1 := by push_cast; ring
    rw [hcast]
    calc |(f x - g x) + ((xs.map f).sum - (xs.map g).sum)|
        ≤ |f x - g x| + |(xs.map f).sum - (xs.map g).sum| := habs
      _ ≤ c + (xs.length : Rat) * c := add_le_add hx hxs
      _ = ((xs.length : Rat) + 1) * c := by ring

/-- C6: whenever at least one defective record exists, the root-cause
percentage shares over the defect types present among the defective
records sum to 100 up to a rounding epsilon of 1/200 per row (the exact
shares sum to 100 precisely; each is rounded to two decimals). -/
theorem causeSummary_percentages_sum (rs : List Record) (h : defectsOf rs ≠ []) :
    |((causeSummary rs).map (fun row => row.percentage)).sum - 100|
      ≤ ((causeSummary rs).length : Rat) / 200 := by
  have hsum_eq : ((causeSummary rs).map (fun row => row.percentage)).sum
      = ((((defectsOf rs).map (fun r => r.defectType)).dedup).map
          (fun t => (causeRow (defectsOf rs) t).percentage)).sum := by
    have hp : (causeSummary rs).Perm
        ((((defectsOf rs).map (fun r => r.defectType)).dedup).map (causeRow (defectsOf rs))) := by
      simp only [causeSummary]
      exact List.mergeSort_perm _ _
    rw [(hp.map (fun row => row.percentage)).sum_eq, List.map_map]
    rfl
  have hlen_eq : (causeSummary rs).length
      = (((defectsOf rs).map (fun r => r.defectType)).dedup).length := by
    simp only [causeSummary]
    rw [(List.mergeSort_perm _ _).length_eq, List.length_map]
  rw [hsum_eq, hlen_eq]
  set l := (defectsOf rs).map (fun r => r.defectType) with hl
  set D := (defectsOf rs).length with hD
  have hD0 : 0 < D := List.length_pos.mpr h
  have hDQ : ((D : Nat) : Rat) ≠ 0 := Nat.cast_ne_zero.mpr hD0.ne'
  have hcnt : ∀ t ∈ l.dedup, ((defectsOf rs).filter (fun r => r.defectType = t)).length
      = List.count t l := by
    intro t _
    rw [List.count_eq_countP, List.countP_map, ← List.countP_eq_length_filter]
    apply List.countP_congr
    intro r _
    simp [Function.comp, beq_iff_eq]
  have hmap : l.dedup.map (fun t => (causeRow (defectsOf rs) t).percentage)
      = l.dedup.map (fun t => round2 (((List.count t l : Nat) : Rat) / (D : Rat) * 100)) := by
    apply List.map_congr_left
    intro t ht
    show round2 ((((defectsOf rs).filter (fun r => r.defectType = t)).length : Rat)
        / ((defectsOf rs).length : Rat) * 100) = _
    rw [hcnt t ht]
  have hexact : (l.dedup.map (fun t => ((List.count t l : Nat) : Rat) / (D : Rat) * 100)).sum
      = 100 := by
    have h1 : l.dedup.map (fun t => ((List.count t l : Nat) : Rat) / (D : Rat) * 100)
        = l.dedup.map (fun t => ((List.count t l : Nat) : Rat) * (100 / (D : Rat))) := by
      apply List.map_congr_left
      intro t _
      ring
    rw [h1, List.sum_map_mul_right]
    have h2 : (l.dedup.map (fun t => ((List.count t l : Nat) : Rat))).sum
        = (((l.dedup.map (fun t => List.count t l)).sum : Nat) : Rat) := by
      rw [Nat.cast_list_sum, List.map_map]
      rfl
    rw [h2]
    have h3 : (l.dedup.map (fun t => List.count t l)).sum = D := by
      have h4 := List.sum_map_count_dedup_eq_length l
      simpa [hl] using h4
    rw [h3]
    field_simp
  rw [hmap]
  have hstep := abs_sum_sub_sum_le l.dedup
    (fun t => round2 (((List.count t l : Nat) : Rat) / (D : Rat) * 100))
    (fun t => ((List.count t l : Nat) : Rat) / (D : Rat) * 100) (1 / 200)
    (fun t _ => round2_sub_le _)
  calc |(l.dedup.map (fun t => round2 (((List.count t l : Nat) : Rat) / (D : Rat) * 100))).sum
          - 100|
      = |(l.dedup.map (fun t => round2 (((List.count t l : Nat) : Rat) / (D : Rat) * 100))).sum
          - (l.dedup.map (fun t => ((List.count t l : Nat) : Rat) / (D : Rat) * 100)).sum| := by
        rw [hexact]
    _ ≤ (l.dedup.length : Rat) * (1 / 200) := hstep
    _ = (l.dedup.length : Rat) / 200 := by ring

/-- C6 witness: the sample dataset has a defective record, and its
root-cause percentages sum to 100 within the rounding bound. -/
theorem causeSummary_percentages_sum_witness :
    |((causeSummary sampleRecords).map (fun row => row.percentage)).sum - 100|
      ≤ ((causeSummary sampleRecords).length : Rat) / 200 :=
  causeSummary_percentages_sum sampleRecords (by decide)

end Inventory
